import Mathlib

/-
  Verification development for the MentorMe-AI capture-and-feedback loop.

  The definitions below are a shallow embedding of the TypeScript sources:
    - src/types.ts                          (data model)
    - src/services/geminiService.ts         (analysis client)
    - the storage service (saveReportMetadata, getReportsMetadata, deleteVideoBlob, getUser)
    - src/components/SessionRecorder.tsx    (continuous-recording session loop)
    - src/components/CoCreatorSession.tsx   (live co-creation session loop)

  JavaScript conventions modelled explicitly:
    - truthiness of strings: "" is falsy, any other string truthy;
    - `x || d` on numbers: 0 and undefined both fall back to d;
    - React effects: an interval created by an effect guarded on a flag exists
      only while that flag is true, so timer ticks are modelled as no-ops when
      the owning flag is false;
    - IEEE-754 binary64 arithmetic in the frame downscaler is modelled by an
      explicit round-to-nearest-even rounding function on rationals.
-/

/-! ## Data model (src/types.ts) -/

inductive SafetyStatus where
  | SAFE
  | UNSAFE
  | UNKNOWN
deriving DecidableEq, Repr

/-- One timestamped observation, as in types.ts.  The gemini service in
src/services/geminiService.ts additionally populates a `detectedActivity`
field beyond the declared interface; it is included as an optional field. -/
structure AnalysisPoint where
  timestamp : Nat
  postureScore : Int
  focusScore : Int
  lightingScore : Int
  safetyStatus : SafetyStatus
  detectedObjects : List String
  suggestion : String
  goodPoints : Option (List String) := none
  improvements : Option (List String) := none
  detectedActivity : Option String := none
deriving DecidableEq, Repr

structure Mentor where
  id : String
  name : String
  description : String
  context : String
  goals : String
  isDefault : Bool := false
  supportedModes : Option (List String) := none
deriving DecidableEq, Repr

structure User where
  id : String
  firstName : String
  lastName : String
  email : String
  language : String
  consentGiven : Bool
  joinedAt : Nat
deriving DecidableEq, Repr

structure SessionReport where
  id : String
  userId : String
  startTime : Nat
  endTime : Nat
  durationSeconds : Nat
  activityType : String
  overallScore : Int
  keyInsights : List String
  timeline : List AnalysisPoint
  videoBlobKey : Option String := none
  isFlagged : Bool
deriving DecidableEq, Repr

/-! ## JavaScript truthiness helpers -/

/-- JS truthiness of an optional string: `undefined`/`null` and `""` are falsy. -/
def jsTruthyStr : Option String → Bool
  | none => false
  | some s => s ≠ ""

/-- JS `v || d` where `v` is a possibly-absent number: `undefined` and `0`
both fall back to the default. -/
def jsOrInt (v : Option Int) (d : Int) : Int :=
  match v with
  | none => d
  | some x => if x = 0 then d else x

/-- JS `v || d` where `v` is a possibly-absent string: `undefined` and `""`
both fall back to the default. -/
def jsOrStr (v : Option String) (d : String) : String :=
  match v with
  | none => d
  | some s => if s = "" then d else s

/-! ## Analysis client (src/services/geminiService.ts) -/

namespace GS

/-- The fields the robust JSON parsing step can extract from the model
response (`result` in the source).  A field is `none` when absent from the
parsed JSON.  A JSON.parse failure yields the empty object `\x7b\x7d`, i.e.
every field absent. -/
structure ParsedAnalysis where
  detectedActivity : Option String := none
  postureScore : Option Int := none
  focusScore : Option Int := none
  lightingScore : Option Int := none
  detectedObjects : Option (List String) := none
  suggestion : Option String := none
  goodPoints : Option (List String) := none
  improvements : Option (List String) := none
  safetyStatus : Option SafetyStatus := none
deriving DecidableEq, Repr

/-- The `result` object produced when `JSON.parse` fails and the code falls
back to the empty object. -/
def emptyParsed : ParsedAnalysis := {}

/-- Outcome of the awaited remote `generateContent` call inside `analyzeFrame`:
either the awaited promise rejects (network/API error, caught by the
surrounding try/catch), or it resolves and the response text parses to a
`ParsedAnalysis` (a hopeless parse yields `emptyParsed`). -/
inductive GenOutcome where
  | failure
  | response (result : ParsedAnalysis)
deriving DecidableEq, Repr

/-- Shallow embedding of `analyzeFrame` from src/services/geminiService.ts.
`apiKey` models `process.env.API_KEY` (absent or empty string is falsy),
`now` models `Date.now()`, `outcome` models the remote call.  The function
throws (`Except.error`) exactly when the API key guard fires; every other
path resolves to an `AnalysisPoint`. -/
def analyzeFrame (apiKey : Option String) (now : Nat) (outcome : GenOutcome)
    (_base64Image : String) (_mentor : Mentor) (_language : String)
    (_userInstruction : String) : Except String AnalysisPoint :=
  if ¬ jsTruthyStr apiKey then
    Except.error "API Key missing"
  else
    match outcome with
    | GenOutcome.response result =>
        Except.ok {
          timestamp := now
          detectedActivity := some (jsOrStr result.detectedActivity "Analyzing screen content...")
          postureScore := jsOrInt result.postureScore 5
          focusScore := jsOrInt result.focusScore 5
          lightingScore := jsOrInt result.lightingScore 5
          detectedObjects := result.detectedObjects.getD []
          suggestion := jsOrStr result.suggestion "I am reading your screen, please wait..."
          goodPoints := some (result.goodPoints.getD [])
          improvements := some (result.improvements.getD [])
          safetyStatus := result.safetyStatus.getD SafetyStatus.UNKNOWN }
    | GenOutcome.failure =>
        Except.ok {
          timestamp := now
          detectedActivity := some "Connection Error"
          postureScore := 0
          focusScore := 0
          lightingScore := 0
          detectedObjects := []
          suggestion := "I'm having trouble seeing the screen. Checking connection..."
          goodPoints := some []
          improvements := some []
          safetyStatus := SafetyStatus.UNKNOWN }

structure FinalSummary where
  keyInsights : List String
  overallScore : Int
deriving DecidableEq, Repr

/-- Outcome of the awaited remote summarization call in
`generateFinalSummary`: the awaited promise may reject (NOT caught — only the
final JSON.parse sits inside a try), or resolve with text that parses to a
summary or fails to parse. -/
inductive SumOutcome where
  | reject
  | response (parsed : Option FinalSummary)
deriving DecidableEq, Repr

/-- Shallow embedding of `generateFinalSummary` from
src/services/geminiService.ts.  The Bool in the result records whether the
remote summarization call was issued at all. -/
def generateFinalSummary (apiKey : Option String) (points : List AnalysisPoint)
    (_mentor : Mentor) (_language : String) (outcome : SumOutcome) :
    Except String (FinalSummary × Bool) :=
  if ¬ jsTruthyStr apiKey then
    Except.error "API Key missing"
  else if points.length = 0 then
    Except.ok ({ keyInsights := ["No data collected"], overallScore := 0 }, false)
  else
    match outcome with
    | SumOutcome.reject => Except.error "remote summarization rejected"
    | SumOutcome.response (some s) => Except.ok (s, true)
    | SumOutcome.response none =>
        Except.ok ({ keyInsights := ["Could not generate summary"], overallScore := 0 }, true)

end GS

/-! ## Storage service (reports, users, video blobs) -/

namespace Storage

/-- The persistent browser state touched by the storage service:
localStorage keys REPORTS_KEY, USERS_DB_KEY, CURRENT_USER_EMAIL_KEY, and the
set of keys present in the IndexedDB video store. -/
structure Store where
  reportsRaw : List SessionReport
  usersDB : List (String × User)
  currentEmail : Option String
  videoBlobs : List String
deriving DecidableEq, Repr

/-- Model of `getUser`: read the current email, then look it up in the users DB. -/
def getUser (s : Store) : Option User :=
  match s.currentEmail with
  | none => none
  | some email =>
      match s.usersDB.lookup email with
      | none => none
      | some u => some u

/-- Model of `deleteVideoBlob`: remove a key from the video blob store.  The IndexedDB
request is modelled as succeeding; a rejected delete is absorbed by the
caller's try/catch in `saveReportMetadata`. -/
def deleteVideoBlob (id : String) (s : Store) : Store :=
  { s with videoBlobs := s.videoBlobs.filter (fun k => k ≠ id) }

/-- Model of `getReportsMetadata`: parse REPORTS_KEY and filter by the current user. -/
def getReportsMetadata (s : Store) : List SessionReport :=
  match getUser s with
  | none => []
  | some u => s.reportsRaw.filter (fun r => r.userId = u.id)

/-- Model of `saveReportMetadata`: prepend the new report to the current user's
reports, evict beyond 5 (deleting each evicted report's video blob), and
write the resulting list back as the whole REPORTS_KEY value. -/
def saveReportMetadata (report : SessionReport) (s : Store) : Store :=
  let reports := report :: getReportsMetadata s
  if 5 < reports.length then
    let reportsToRemove := reports.drop 5
    let kept := reports.take 5
    let s1 := reportsToRemove.foldl
      (fun st r =>
        match r.videoBlobKey with
        | some k => deleteVideoBlob k st
        | none => st) s
    { s1 with reportsRaw := kept }
  else
    { s with reportsRaw := reports }

end Storage

/-! ## Frame sampler (captureFrame in SessionRecorder.tsx and CoCreatorSession.tsx)

The downscale logic computes, in JavaScript double arithmetic,
`scale = Math.min(1, MAX_WIDTH / canvas.width)` and, when `scale < 1`,
assigns `canvas.width * scale` and `canvas.height * scale` back to the canvas
(the assignment truncates the positive double toward zero; CoCreatorSession
applies `Math.floor` explicitly, which coincides on positive values).

Two embeddings of the same geometry are given:
  - `Frame.scaledDimsFl`, an executable model whose two rounded operations
    (the division and each multiplication) follow IEEE-754 binary64
    round-to-nearest, ties-to-even, on positive values in the normal range;
  - `Frame.scaledDims`, parametric in a rounding function `rnd : ℚ → ℚ`
    applied after each arithmetic operation, so properties can be proved for
    every rounding within the binary64 relative-error envelope.
-/

namespace Frame

/-- Floor of log₂ via explicit fuel, so the kernel can evaluate it
(`Nat.log2` itself is defined by well-founded recursion). -/
def log2f : Nat → Nat → Nat
  | 0, _ => 0
  | f + 1, n => if 2 ≤ n then log2f f (n / 2) + 1 else 0

/-- Floor of log₂ n for n ≥ 1 (fuel n suffices). -/
def nlog2 (n : Nat) : Nat := log2f n n

/-- Round num/den to the nearest integer, ties to even. -/
def rnEven (num den : Nat) : Nat :=
  let q := num / den
  let r := num % den
  if 2 * r < den then q
  else if den < 2 * r then q + 1
  else if q % 2 = 0 then q else q + 1

/-- Whether the significand of (a/b)·2^(−e) lies in [2^52, 2^53). -/
def inRange (a b : Nat) (e : Int) : Bool :=
  if 0 ≤ e then
    let s := b * 2 ^ e.toNat
    decide (2 ^ 52 * s ≤ a ∧ a < 2 ^ 53 * s)
  else
    let a2 := a * 2 ^ (-e).toNat
    decide (2 ^ 52 * b ≤ a2 ∧ a2 < 2 ^ 53 * b)

/-- IEEE-754 binary64 rounding of the positive rational a/b (normal range):
the significand-exponent pair (m, e) with 2^52 ≤ (a/b)·2^(−e) < 2^53 and
m the round-to-nearest-even significand, so that the rounded value is m·2^e. -/
def flMantExp (a b : Nat) : Nat × Int :=
  let e0 : Int := (nlog2 a : Int) - (nlog2 b : Int) - 52
  let e := (([e0 - 1, e0, e0 + 1].find? (fun x => inRange a b x)).getD e0)
  let m := if 0 ≤ e then rnEven a (b * 2 ^ e.toNat) else rnEven (a * 2 ^ (-e).toNat) b
  (m, e)

/-- Is the double m·2^e < 1 ? -/
def flLtOne (me : Nat × Int) : Bool :=
  if 0 ≤ me.2 then decide (me.1 * 2 ^ me.2.toNat < 1)
  else decide (me.1 < 2 ^ (-me.2).toNat)

/-- Floor (truncation toward zero of a positive value) of the IEEE-rounded
product n · (m·2^e): the canvas-dimension assignment `canvas.width = n * scale`. -/
def flFloorMul (n : Nat) (me : Nat × Int) : Nat :=
  let a := n * me.1
  let b := if 0 ≤ me.2 then 1 else 2 ^ (-me.2).toNat
  let a2 := if 0 ≤ me.2 then a * 2 ^ me.2.toNat else a
  if a2 = 0 then 0
  else
    let me2 := flMantExp a2 b
    if 0 ≤ me2.2 then me2.1 * 2 ^ me2.2.toNat else me2.1 / 2 ^ (-me2.2).toNat

/-- Executable IEEE binary64 model of the canvas downscale: from natural
dimensions (w, h) to the drawn canvas dimensions, for maximum width maxW.
For w = 0, JavaScript computes `maxW / 0 = Infinity`, `Math.min` gives 1 and
no scaling happens. -/
def scaledDimsFl (maxW w h : Nat) : Nat × Nat :=
  if w = 0 then (w, h)
  else
    let me1 := flMantExp maxW w
    if flLtOne me1 then (flFloorMul w me1, flFloorMul h me1)
    else (w, h)

/-- Rounding-parametric model of the same downscale: `rnd` is applied after
the division and after each multiplication (instantiating `rnd` with the
identity gives exact arithmetic; binary64 satisfies the relative-error
envelope used by the theorems below). -/
def scaledDims (rnd : ℚ → ℚ) (maxW w h : Nat) : Nat × Nat :=
  if w = 0 then (w, h)
  else
    let scale : ℚ := min 1 (rnd ((maxW : ℚ) / (w : ℚ)))
    if scale < 1 then
      ((Int.floor (rnd ((w : ℚ) * scale))).toNat,
       (Int.floor (rnd ((h : ℚ) * scale))).toNat)
    else (w, h)

/-- The 2^(−53) relative-error bound of one binary64 operation in the normal
range. -/
def ulpErr : ℚ := 1 / 2 ^ 53

/-- The contract a rounding function must satisfy to model one binary64
operation on positive normal-range values: bounded relative error, exactness
at 0, and not rounding a value ≥ 1 below 1 (1 is representable). -/
def RoundingModel (rnd : ℚ → ℚ) : Prop :=
  (∀ x : ℚ, 0 < x → (1 - ulpErr) * x ≤ rnd x ∧ rnd x ≤ (1 + ulpErr) * x) ∧
  rnd 0 = 0 ∧
  (∀ x : ℚ, 1 ≤ x → 1 ≤ rnd x)

/-- The state of the video element read by captureFrame. -/
structure VideoState where
  videoWidth : Nat
  videoHeight : Nat
  readyState : Nat
deriving DecidableEq, Repr

/-- The payload portion (after the comma) of
`canvas.toDataURL('image/jpeg', q)` for a canvas of the given dimensions:
a zero-area canvas encodes to the URL "data:," whose payload is empty, a
positive-area canvas to "data:image/jpeg;base64,<body>" with `payload w h`
the base64 body. -/
def dataURLPayload (payload : Nat → Nat → String) (w h : Nat) : String :=
  if w = 0 ∨ h = 0 then "" else payload w h

/-- Model of `captureFrame` of SessionRecorder.tsx (camera session, MAX_WIDTH 1024,
jpeg quality 0.6) for a mounted component with an available 2d context.
There is no readiness or dimension check: the canvas is sized from the video
and encoded unconditionally; `split(',')[1]` yields the payload portion. -/
def srCaptureFrame (rnd : ℚ → ℚ) (payload : Nat → Nat → String)
    (video : VideoState) : Option String :=
  let dims := scaledDims rnd 1024 video.videoWidth video.videoHeight
  some (dataURLPayload payload dims.1 dims.2)

/-- Model of `captureFrame` of CoCreatorSession.tsx (screen share, MAX_WIDTH 1920,
jpeg quality 0.7) for a mounted component with an available 2d context:
returns null while the video has no data (`readyState < 2`) or a zero
natural dimension. -/
def ccCaptureFrame (rnd : ℚ → ℚ) (payload : Nat → Nat → String)
    (video : VideoState) : Option String :=
  if video.readyState < 2 ∨ video.videoWidth = 0 ∨ video.videoHeight = 0 then none
  else
    let dims := scaledDims rnd 1920 video.videoWidth video.videoHeight
    some (dataURLPayload payload dims.1 dims.2)

end Frame

/-! ## Media stream tracks -/

/-- One track of an acquired MediaStream; `stopped` records whether
`track.stop()` has been called on it. -/
structure Track where
  stopped : Bool
deriving DecidableEq, Repr

/-! ## Session Loop: continuous-recording session (SessionRecorder.tsx) -/

namespace SR

/-- The runtime state of the SessionRecorder component.  `deviceTracks` are
the tracks of the MediaStream acquired by initCamera (empty before
acquisition); `streamRef` models `streamRef.current !== null` (it points at
that stream); `hasRecorder` models `mediaRecorderRef.current !== null`. -/
structure SRState where
  deviceTracks : List Track
  streamRef : Bool
  hasRecorder : Bool
  recorderActive : Bool
  isRecording : Bool
  isProcessing : Bool
  timeLeft : Nat
  analysisPoints : List AnalysisPoint
  currentSuggestion : String
  lastAnalysis : Option AnalysisPoint
  error : Option String
  isVoiceEnabled : Bool
  liveContext : String
deriving DecidableEq, Repr

def safetyMessage : String :=
  "SAFETY ALERT: Toxic or unsafe content detected. Session terminated immediately."

def cameraErrorMessage : String :=
  "Camera access denied. Please allow permissions to use the app."

def processErrorMessage : String := "Failed to process session data."

/-- Model of `streamRef.current.getTracks().forEach(track => track.stop())` (done only
when the ref is set); the ref itself is left in place. -/
def stopDeviceTracks (s : SRState) : SRState :=
  if s.streamRef then
    { s with deviceTracks := s.deviceTracks.map (fun _ => { stopped := true }) }
  else s

def initCameraSuccess (tracks : List Track) (s : SRState) : SRState :=
  { s with deviceTracks := tracks, streamRef := true }

def initCameraFailure (s : SRState) : SRState :=
  { s with error := some cameraErrorMessage }

def startRecording (s : SRState) : SRState :=
  if ¬ s.streamRef then s
  else { s with hasRecorder := true, recorderActive := true, isRecording := true, error := none }

/-- Model of `handleUnsafeContent`: stop the recorder if active, leave recording mode,
set the safety error, and stop every track of the stream (the ref is not
cleared and the live context is not touched). -/
def handleUnsafeContent (s : SRState) : SRState :=
  stopDeviceTracks
    { s with recorderActive := false, isRecording := false, error := some safetyMessage }

/-- One capture-and-analyze cycle (`performAnalysis`): skip silently when the
captured frame is falsy (null or the empty payload); on an UNSAFE result run
`handleUnsafeContent` and discard the point; otherwise append the point and
update the display state. -/
def performAnalysis (frame : Option String) (point : AnalysisPoint) (s : SRState) : SRState :=
  if ¬ jsTruthyStr frame then s
  else if point.safetyStatus = SafetyStatus.UNSAFE then handleUnsafeContent s
  else
    { s with analysisPoints := s.analysisPoints ++ [point],
             lastAnalysis := some point,
             currentSuggestion := point.suggestion }

/-- Model of `stopRecording` together with the recorder's onstop continuation.
`blobSaveOk` models whether `saveVideoBlob` resolves (its failure is caught
and only logged); `summaryOutcome` models `generateFinalSummary` (its
rejection reaches the outer catch); `metaSaveOk` models `saveReportMetadata`.
Returns the new state and the report delivered through `onComplete`, if any.
Note the report's `videoBlobKey` is assigned unconditionally. -/
def stopRecording (mentor : Mentor) (userId : String)
    (blobSaveOk : Bool) (summaryOutcome : Except Unit GS.FinalSummary)
    (metaSaveOk : Bool) (reportId : String) (now : Nat)
    (s : SRState) : SRState × Option SessionReport :=
  if ¬ s.hasRecorder ∨ s.isProcessing then (s, none)
  else
    let s1 := { s with isProcessing := true, isRecording := false, recorderActive := false }
    match summaryOutcome with
    | Except.error _ =>
        ({ s1 with error := some processErrorMessage, isProcessing := false }, none)
    | Except.ok summary =>
        if metaSaveOk then
          let report : SessionReport := {
            id := reportId
            userId := userId
            startTime := now - (600000 - s.timeLeft * 1000)
            endTime := now
            durationSeconds := 600 - s.timeLeft
            activityType := mentor.name
            overallScore := summary.overallScore
            keyInsights := summary.keyInsights
            timeline := s1.analysisPoints
            videoBlobKey := some reportId
            isFlagged := false }
          (s1, some report)
        else
          ({ s1 with error := some processErrorMessage, isProcessing := false }, none)

/-- The unmount cleanup of the camera effect: stop the stream's tracks (the
ref is not cleared); it also cancels speech synthesis and aborts recognition,
which live outside this state. -/
def cleanup (s : SRState) : SRState := stopDeviceTracks s

/-- The events that can reach the component while mounted.  The analysis
interval and the countdown timer exist only while `isRecording` (their
effects are cleaned up otherwise), and the UI events are available only when
the error view is not shown (the component renders the error screen
exclusively once `error` is set). -/
inductive SREvent where
  | camOk (tracks : List Track)
  | camFail
  | start
  | tick (frame : Option String) (point : AnalysisPoint)
  | timerDec
  | stopClick (blobSaveOk : Bool) (summaryOutcome : Except Unit GS.FinalSummary)
      (metaSaveOk : Bool) (reportId : String) (now : Nat)
  | speechResult (transcript : String)
  | clearContext
  | toggleVoice

def step (mentor : Mentor) (userId : String) (e : SREvent) (s : SRState) : SRState :=
  match e with
  | SREvent.camOk tracks => initCameraSuccess tracks s
  | SREvent.camFail => initCameraFailure s
  | SREvent.start =>
      if s.error = none ∧ ¬ s.isRecording ∧ ¬ s.isProcessing then startRecording s else s
  | SREvent.tick frame point =>
      if s.isRecording then performAnalysis frame point s else s
  | SREvent.timerDec =>
      if s.isRecording ∧ 1 < s.timeLeft then { s with timeLeft := s.timeLeft - 1 } else s
  | SREvent.stopClick b so m rid now =>
      if s.error = none ∧ s.isRecording then (stopRecording mentor userId b so m rid now s).1
      else s
  | SREvent.speechResult t => { s with liveContext := t }
  | SREvent.clearContext => if s.error = none then { s with liveContext := "" } else s
  | SREvent.toggleVoice =>
      if s.error = none then { s with isVoiceEnabled := ¬ s.isVoiceEnabled } else s

def run (mentor : Mentor) (userId : String) (events : List SREvent) (s : SRState) : SRState :=
  events.foldl (fun st e => step mentor userId e st) s

end SR

/-! ## Session Loop: live co-creation session (CoCreatorSession.tsx) -/

namespace CC

structure CCState where
  deviceTracks : List Track
  streamRef : Bool
  isLive : Bool
  currentSuggestion : String
  currentActivity : String
  lastAnalysis : Option AnalysisPoint
  error : Option String
  isVoiceEnabled : Bool
  isAnalyzing : Bool
  liveContext : String
deriving DecidableEq, Repr

def ccSafetyMessage : String :=
  "SAFETY ALERT: The AI detected unsafe content. Session terminated."

/-- Model of `handleStop`: leave live mode, stop every track and clear the stream
ref (when set), and show the stopped message. -/
def handleStop (s : CCState) : CCState :=
  let s1 := { s with isLive := false }
  let s2 :=
    if s1.streamRef then
      { s1 with deviceTracks := s1.deviceTracks.map (fun _ => { stopped := true }),
                streamRef := false }
    else s1
  { s2 with currentSuggestion := "Session stopped." }

/-- The error thrown by `getDisplayMedia`, as far as the catch inspects it. -/
structure AcqError where
  isDOMException : Bool
  name : String
deriving DecidableEq, Repr

/-- The message the catch of `startScreenShare` assigns for a given
acquisition error: only a DOMException named NotAllowedError is
distinguished; everything else gets the generic message. -/
def screenShareErrorMessage (e : AcqError) : String :=
  if e.isDOMException ∧ e.name = "NotAllowedError" then "Permission cancelled."
  else "Could not start screen share."

def startScreenShareSuccess (tracks : List Track) (s : CCState) : CCState :=
  { s with error := none, deviceTracks := tracks, streamRef := true, isLive := true,
           currentSuggestion := "Connected. I'm watching your screen." }

/-- The failure path of `startScreenShare`: the entry `setError(null)`
followed by the catch assigning the message; `isLive` is never set. -/
def startScreenShareFailure (e : AcqError) (s : CCState) : CCState :=
  { s with error := some (screenShareErrorMessage e) }

/-- One capture-and-analyze cycle.  `manualContext` is the fresh transcript
passed by the voice trigger (the request is sent with it when present,
otherwise with the stored live context); the response is `point`. -/
def performAnalysis (frame : Option String) (point : AnalysisPoint)
    (_manualContext : Option String) (s : CCState) : CCState :=
  if ¬ jsTruthyStr frame then s
  else
    let s0 := { s with isAnalyzing := false }
    if point.safetyStatus = SafetyStatus.UNSAFE then
      { handleStop s0 with error := some ccSafetyMessage }
    else
      let s1 := { s0 with lastAnalysis := some point,
                          currentSuggestion := point.suggestion }
      match point.detectedActivity with
      | some a => if a = "" then s1 else { s1 with currentActivity := a }
      | none => s1

/-- Events reaching the component: the share buttons only render when idle
without an error view; the analysis interval exists only while `isLive`;
the voice trigger stores the transcript and, if live, runs an immediate
cycle; `trackEnded` is the onended listener installed on the acquired
stream's primary track. -/
inductive CCEvent where
  | startOk (tracks : List Track)
  | startFail (e : AcqError)
  | tick (frame : Option String) (point : AnalysisPoint)
  | voiceTick (transcript : String) (frame : Option String) (point : AnalysisPoint)
  | trackEnded
  | stopClick
  | retryClick
  | clearContext
  | toggleVoice

def step (e : CCEvent) (s : CCState) : CCState :=
  match e with
  | CCEvent.startOk tracks =>
      if s.error = none ∧ ¬ s.isLive then startScreenShareSuccess tracks s else s
  | CCEvent.startFail err =>
      if s.error = none ∧ ¬ s.isLive then startScreenShareFailure err s else s
  | CCEvent.tick frame point =>
      if s.isLive then performAnalysis frame point none s else s
  | CCEvent.voiceTick t frame point =>
      let s1 := { s with liveContext := t }
      if s1.isLive then performAnalysis frame point (some t) s1 else s1
  | CCEvent.trackEnded => if s.streamRef then handleStop s else s
  | CCEvent.stopClick => if s.error = none ∧ s.isLive then handleStop s else s
  | CCEvent.retryClick => if s.error ≠ none then { s with error := none } else s
  | CCEvent.clearContext => if s.error = none then { s with liveContext := "" } else s
  | CCEvent.toggleVoice =>
      if s.error = none then { s with isVoiceEnabled := ¬ s.isVoiceEnabled } else s

def run (events : List CCEvent) (s : CCState) : CCState :=
  events.foldl (fun st e => step e st) s

end CC

/-! ## Speech Output Controller (the TTS effects of both components) -/

namespace Speech

structure Voice where
  name : String
  lang : String
deriving DecidableEq, Repr

structure Utterance where
  text : String
  lang : String
  voice : Option Voice
  rate : ℚ
  pitch : ℚ
deriving DecidableEq, Repr

/-- Whether `pat` occurs as a contiguous sublist of `s`. -/
def listContains (pat : List Char) : List Char → Bool
  | [] => pat.isEmpty
  | c :: rest => pat.isPrefixOf (c :: rest) || listContains pat rest

/-- JS `string.includes(pattern)`. -/
def strContains (s pat : String) : Bool := listContains pat.toList s.toList

/-- JS `string.startsWith(pattern)`. -/
def strStarts (s pat : String) : Bool := pat.toList.isPrefixOf s.toList

/-- The language-tag switch shared by both TTS effects. -/
def langTagFor (userLanguage : String) : String :=
  if userLanguage = "Spanish" then "es-ES"
  else if userLanguage = "French" then "fr-FR"
  else "en-US"

/-- Model of `langTag.split('-')[0]`. -/
def langBase (tag : String) : String := (tag.toList.takeWhile (fun c => c ≠ '-')).asString

/-- Voice preference of SessionRecorder.tsx: a language-matching voice whose
name hints at quality (Google / Natural / Premium / Enhanced), else any
language-matching voice, else none (the platform default is used). -/
def srPreferredVoice (voices : List Voice) (langTag : String) : Option Voice :=
  let base := langBase langTag
  match voices.find? (fun v => strStarts v.lang base &&
      (strContains v.name "Google" || strContains v.name "Natural" ||
       strContains v.name "Premium" || strContains v.name "Enhanced")) with
  | some v => some v
  | none => voices.find? (fun v => strStarts v.lang base)

/-- Voice preference of CoCreatorSession.tsx (no "Enhanced" hint). -/
def ccPreferredVoice (voices : List Voice) (langTag : String) : Option Voice :=
  let base := langBase langTag
  match voices.find? (fun v => strStarts v.lang base &&
      (strContains v.name "Google" || strContains v.name "Natural" ||
       strContains v.name "Premium")) with
  | some v => some v
  | none => voices.find? (fun v => strStarts v.lang base)

/-- Persona tone lookup of SessionRecorder.tsx, keyed on substrings of the
mentor id. -/
def srRatePitch (mentorId : String) : ℚ × ℚ :=
  if strContains mentorId "yoga" then (0.85, 0.9)
  else if strContains mentorId "tag_team" then (1.2, 1.1)
  else if strContains mentorId "debate" then (1, 1)
  else (1.05, 1)

/-- Persona tone lookup of CoCreatorSession.tsx. -/
def ccRatePitch (mentorId : String) : ℚ × ℚ :=
  if strContains mentorId "coworker" then (1.05, 1)
  else if strContains mentorId "tag_team" then (1.2, 1.1)
  else (1.1, 1)

/-- The dependencies of the TTS effect (its React dependency array). -/
structure TTSDeps where
  currentSuggestion : String
  isVoiceEnabled : Bool
  live : Bool
  userLanguage : String
  availableVoices : List Voice
  mentorId : String
deriving DecidableEq, Repr

def srUtterance (d : TTSDeps) : Utterance :=
  let tag := langTagFor d.userLanguage
  let rp := srRatePitch d.mentorId
  { text := d.currentSuggestion, lang := tag,
    voice := srPreferredVoice d.availableVoices tag, rate := rp.1, pitch := rp.2 }

def ccUtterance (d : TTSDeps) : Utterance :=
  let tag := langTagFor d.userLanguage
  let rp := ccRatePitch d.mentorId
  { text := d.currentSuggestion, lang := tag,
    voice := ccPreferredVoice d.availableVoices tag, rate := rp.1, pitch := rp.2 }

/-- The TTS effect of SessionRecorder.tsx: runs whenever a dependency
changes.  Without the synthesis capability it returns untouched; otherwise
it first cancels any in-flight utterance and then speaks the current
suggestion only if voice is enabled, the suggestion is truthy, and the
session is recording.  The result is the utterance now in flight. -/
def srTtsEffect (synthAvailable : Bool) (d : TTSDeps) (speaking : Option Utterance) :
    Option Utterance :=
  if ¬ synthAvailable then speaking
  else if ¬ d.isVoiceEnabled ∨ d.currentSuggestion = "" ∨ ¬ d.live then none
  else some (srUtterance d)

/-- The TTS effect of CoCreatorSession.tsx (same structure, keyed on
`isLive`). -/
def ccTtsEffect (synthAvailable : Bool) (d : TTSDeps) (speaking : Option Utterance) :
    Option Utterance :=
  if ¬ synthAvailable then speaking
  else if ¬ d.isVoiceEnabled ∨ d.currentSuggestion = "" ∨ ¬ d.live then none
  else some (ccUtterance d)

end Speech

/-! ## Concrete sample values used by witnesses and counterexamples -/

def sampleMentor : Mentor :=
  { id := "yoga", name := "Yoga Teacher", description := "Pose feedback",
    context := "You are a yoga instructor.", goals := "Alignment and breathing.",
    isDefault := true, supportedModes := some ["camera"] }

def safePoint : AnalysisPoint :=
  { timestamp := 10, postureScore := 7, focusScore := 6, lightingScore := 8,
    safetyStatus := SafetyStatus.SAFE, detectedObjects := ["mat"],
    suggestion := "Keep your back straight." }

def flaggedPoint : AnalysisPoint :=
  { timestamp := 20, postureScore := 1, focusScore := 1, lightingScore := 1,
    safetyStatus := SafetyStatus.UNSAFE, detectedObjects := [],
    suggestion := "n/a" }

def srLive : SR.SRState :=
  { deviceTracks := [{ stopped := false }, { stopped := false }], streamRef := true,
    hasRecorder := true, recorderActive := true, isRecording := true,
    isProcessing := false, timeLeft := 540, analysisPoints := [safePoint],
    currentSuggestion := "Keep your back straight.", lastAnalysis := some safePoint,
    error := none, isVoiceEnabled := true, liveContext := "focus on my arms" }

def srIdle : SR.SRState :=
  { deviceTracks := [], streamRef := false, hasRecorder := false,
    recorderActive := false, isRecording := false, isProcessing := false,
    timeLeft := 600, analysisPoints := [], currentSuggestion := "Initializing mentor AI...",
    lastAnalysis := none, error := none, isVoiceEnabled := false, liveContext := "" }

def ccLive : CC.CCState :=
  { deviceTracks := [{ stopped := false }], streamRef := true, isLive := true,
    currentSuggestion := "Connected. I'm watching your screen.", currentActivity := "Coding",
    lastAnalysis := some safePoint, error := none, isVoiceEnabled := true,
    isAnalyzing := false, liveContext := "look at this" }

def ccIdle : CC.CCState :=
  { deviceTracks := [], streamRef := false, isLive := false,
    currentSuggestion := "Ready to connect...",
    currentActivity := "Waiting for screen share...", lastAnalysis := none,
    error := none, isVoiceEnabled := true, isAnalyzing := false, liveContext := "" }

def sampleUser : User :=
  { id := "user1", firstName := "Ann", lastName := "Lee", email := "ann@gmail.com",
    language := "English", consentGiven := true, joinedAt := 0 }

def wReport0 : SessionReport :=
  { id := "rep0", userId := "user1", startTime := 0, endTime := 60, durationSeconds := 60,
    activityType := "Yoga Teacher", overallScore := 70, keyInsights := ["k0"],
    timeline := [], videoBlobKey := some "blob0", isFlagged := false }

def wReport1 : SessionReport :=
  { id := "rep1", userId := "user1", startTime := 100, endTime := 160, durationSeconds := 60,
    activityType := "Yoga Teacher", overallScore := 71, keyInsights := ["k1"],
    timeline := [], videoBlobKey := some "blob1", isFlagged := false }

def wReport2 : SessionReport :=
  { id := "rep2", userId := "user1", startTime := 200, endTime := 260, durationSeconds := 60,
    activityType := "Yoga Teacher", overallScore := 72, keyInsights := ["k2"],
    timeline := [], videoBlobKey := some "blob2", isFlagged := false }

def wReport3 : SessionReport :=
  { id := "rep3", userId := "user1", startTime := 300, endTime := 360, durationSeconds := 60,
    activityType := "Yoga Teacher", overallScore := 73, keyInsights := ["k3"],
    timeline := [], videoBlobKey := some "blob3", isFlagged := false }

def wReport4 : SessionReport :=
  { id := "rep4", userId := "user1", startTime := 400, endTime := 460, durationSeconds := 60,
    activityType := "Yoga Teacher", overallScore := 74, keyInsights := ["k4"],
    timeline := [], videoBlobKey := some "blob4", isFlagged := false }

def wReport5 : SessionReport :=
  { id := "rep5", userId := "user1", startTime := 500, endTime := 560, durationSeconds := 60,
    activityType := "Yoga Teacher", overallScore := 75, keyInsights := ["k5"],
    timeline := [], videoBlobKey := some "blob5", isFlagged := false }

def storeWith5 : Storage.Store :=
  { reportsRaw := [wReport4, wReport3, wReport2, wReport1, wReport0],
    usersDB := [("ann@gmail.com", sampleUser)],
    currentEmail := some "ann@gmail.com",
    videoBlobs := ["blob0", "blob1", "blob2", "blob3", "blob4"] }

def ttsDepsOn : Speech.TTSDeps :=
  { currentSuggestion := "Keep your back straight.", isVoiceEnabled := true,
    live := true, userLanguage := "English", availableVoices := [], mentorId := "yoga" }

def ttsDepsOff : Speech.TTSDeps := { ttsDepsOn with isVoiceEnabled := false }

/-- A sample base64 body for the jpeg encoder abstraction. -/
def bodyPayload : Nat → Nat → String := fun _ _ => "AAAA"

/-! # Theorems -/

/-! ## C10 — empty-history summary short-circuit -/

/-- C10: assuming the API key is configured, generateFinalSummary applied to
an empty AnalysisPoint list returns exactly the summary with keyInsights
["No data collected"] and overallScore 0, without issuing any remote
summarization call (the Bool component is false), for every mentor and
language. -/
theorem c10_empty_history_summary (apiKey : Option String)
    (hk : jsTruthyStr apiKey = true) (mentor : Mentor) (language : String)
    (outcome : GS.SumOutcome) :
    GS.generateFinalSummary apiKey [] mentor language outcome =
      Except.ok ({ keyInsights := ["No data collected"], overallScore := 0 }, false) := by
  unfold GS.generateFinalSummary
  simp [hk]

/-- Witness for C10 at a concrete configured key, mentor, language, and a
rejecting remote outcome. -/
theorem c10_empty_history_summary_witness :
    GS.generateFinalSummary (some "k") [] sampleMentor "English" GS.SumOutcome.reject =
      Except.ok ({ keyInsights := ["No data collected"], overallScore := 0 }, false) :=
  c10_empty_history_summary (some "k") (by decide) sampleMentor "English" GS.SumOutcome.reject

/-! ## C2 — analyzeFrame degradation contract -/

/-- C2 counterexample: with the API key unset, analyzeFrame throws
("API Key missing") instead of resolving to a degraded AnalysisPoint, so the
claim that it never throws for every image, mentor, language and instruction
is false. -/
theorem c2_counterexample :
    GS.analyzeFrame none 0 (GS.GenOutcome.response GS.emptyParsed) "img"
      sampleMentor "English" "" = Except.error "API Key missing" := rfl

/-- C2 amended: provided the API key is configured, analyzeFrame never
throws; a hard failure of the remote call resolves to a point with all three
scores 0 and safetyStatus UNKNOWN, and a response whose JSON parse fails
(the empty parsed object) resolves to a point with all three scores 5 and
safetyStatus UNKNOWN. -/
theorem c2_degraded_analysis (apiKey : Option String) (hk : jsTruthyStr apiKey = true)
    (now : Nat) (img : String) (mentor : Mentor) (language : String)
    (instr : String) :
    (∀ outcome, ∃ p, GS.analyzeFrame apiKey now outcome img mentor language instr =
        Except.ok p) ∧
    (∀ p, GS.analyzeFrame apiKey now GS.GenOutcome.failure img mentor language instr =
        Except.ok p →
      p.postureScore = 0 ∧ p.focusScore = 0 ∧ p.lightingScore = 0 ∧
        p.safetyStatus = SafetyStatus.UNKNOWN) ∧
    (∀ p, GS.analyzeFrame apiKey now (GS.GenOutcome.response GS.emptyParsed) img
        mentor language instr = Except.ok p →
      p.postureScore = 5 ∧ p.focusScore = 5 ∧ p.lightingScore = 5 ∧
        p.safetyStatus = SafetyStatus.UNKNOWN) := by
  have hne : ¬ ¬ jsTruthyStr apiKey = true := by simp [hk]
  refine ⟨?_, ?_, ?_⟩
  · intro outcome
    unfold GS.analyzeFrame
    rw [if_neg hne]
    cases outcome with
    | failure => exact ⟨_, rfl⟩
    | response r => exact ⟨_, rfl⟩
  · intro p hp
    unfold GS.analyzeFrame at hp
    rw [if_neg hne] at hp
    simp only [Except.ok.injEq] at hp
    subst hp
    exact ⟨rfl, rfl, rfl, rfl⟩
  · intro p hp
    unfold GS.analyzeFrame at hp
    rw [if_neg hne] at hp
    simp only [Except.ok.injEq] at hp
    subst hp
    exact ⟨rfl, rfl, rfl, rfl⟩

/-- Witness for C2 (amended) at a concrete configured key and the
hard-failure outcome. -/
theorem c2_degraded_analysis_witness :
    ∃ p, GS.analyzeFrame (some "k") 0 GS.GenOutcome.failure "img" sampleMentor
      "English" "" = Except.ok p :=
  (c2_degraded_analysis (some "k") (by decide) 0 "img" sampleMentor "English" "").1
    GS.GenOutcome.failure

/-! ## C9 — video-blob persistence failure during stop -/

/-- C9 counterexample: stopping with the video-blob save failing still
delivers the report, but its videoBlobKey is SET to the fresh report id —
it is not absent as the claim states. -/
theorem c9_counterexample :
    ((SR.stopRecording sampleMentor "user1" false
        (Except.ok { keyInsights := ["k"], overallScore := 80 }) true "rid1" 700000
        srLive).2.map (fun r => r.videoBlobKey)) = some (some "rid1") := rfl

/-- C9 amended: if persisting the recorded video blob fails during stop,
session completion still proceeds — the summary is used, the report is
assembled and delivered to the caller, and no error is raised — but the
report's videoBlobKey is still set to the fresh report id rather than being
absent. -/
theorem c9_blob_failure_nonfatal (mentor : Mentor) (userId : String)
    (summary : GS.FinalSummary) (rid : String) (now : Nat) (s : SR.SRState)
    (hrec : s.hasRecorder = true) (hproc : s.isProcessing = false) :
    ∃ r : SessionReport,
      (SR.stopRecording mentor userId false (Except.ok summary) true rid now s).2 = some r ∧
      r.videoBlobKey = some rid ∧
      r.id = rid ∧
      r.overallScore = summary.overallScore ∧
      r.keyInsights = summary.keyInsights ∧
      r.timeline = s.analysisPoints ∧
      (SR.stopRecording mentor userId false (Except.ok summary) true rid now s).1.error
        = s.error := by
  unfold SR.stopRecording
  simp [hrec, hproc]

/-- Witness for C9 (amended) at a concrete live recorder state. -/
theorem c9_blob_failure_nonfatal_witness :
    ∃ r : SessionReport,
      (SR.stopRecording sampleMentor "user1" false
          (Except.ok { keyInsights := ["k"], overallScore := 80 }) true "rid9" 700000
          srLive).2 = some r ∧ r.videoBlobKey = some "rid9" := by
  obtain ⟨r, h1, h2, _⟩ := c9_blob_failure_nonfatal sampleMentor "user1"
    { keyInsights := ["k"], overallScore := 80 } "rid9" 700000 srLive rfl rfl
  exact ⟨r, h1, h2⟩

/-! ## C7 — device-acquisition failure handling -/

/-- C7 counterexample: the screen-share failure handler maps a policy-style
error (a DOMException not named NotAllowedError) and a generic failure to the
same message, so three distinct denial messages do not exist in the code. -/
theorem c7_counterexample :
    CC.screenShareErrorMessage { isDOMException := true, name := "SecurityError" } =
      CC.screenShareErrorMessage { isDOMException := false, name := "AbortError" } ∧
    CC.screenShareErrorMessage { isDOMException := true, name := "SecurityError" } =
      "Could not start screen share." := by decide

/-- C7 amended: a failed acquisition transitions to the error state with a
user-facing message and no periodic analysis starts.  The co-creation
variant distinguishes exactly two reasons — a DOMException named
NotAllowedError (permission denied / cancelled) versus everything else —
with two distinct messages; the recording variant shows one fixed message;
in both variants the live flag stays false so tick events are no-ops. -/
theorem c7_acquisition_failure (cs : CC.CCState) (hce : cs.error = none)
    (hcl : cs.isLive = false) (e : CC.AcqError)
    (ss : SR.SRState) (hsr : ss.isRecording = false)
    (mentor : Mentor) (userId : String) :
    ((CC.step (CC.CCEvent.startFail e) cs).error = some (CC.screenShareErrorMessage e)) ∧
    ((CC.step (CC.CCEvent.startFail e) cs).isLive = false) ∧
    (e.isDOMException = true ∧ e.name = "NotAllowedError" →
      CC.screenShareErrorMessage e = "Permission cancelled.") ∧
    (¬ (e.isDOMException = true ∧ e.name = "NotAllowedError") →
      CC.screenShareErrorMessage e = "Could not start screen share.") ∧
    ((("Permission cancelled." : String) ≠ "Could not start screen share.")) ∧
    (∀ frame point, CC.step (CC.CCEvent.tick frame point)
        (CC.step (CC.CCEvent.startFail e) cs) = CC.step (CC.CCEvent.startFail e) cs) ∧
    ((SR.initCameraFailure ss).error = some SR.cameraErrorMessage) ∧
    (∀ frame point, SR.step mentor userId (SR.SREvent.tick frame point)
        (SR.initCameraFailure ss) = SR.initCameraFailure ss) := by
  have hstep : CC.step (CC.CCEvent.startFail e) cs = CC.startScreenShareFailure e cs := by
    simp [CC.step, hce, hcl]
  refine ⟨?_, ?_, ?_, ?_, ?_, ?_, ?_, ?_⟩
  · rw [hstep]; rfl
  · rw [hstep]
    simp [CC.startScreenShareFailure, hcl]
  · intro h
    simp [CC.screenShareErrorMessage, h.1, h.2]
  · intro h
    unfold CC.screenShareErrorMessage
    rw [if_neg h]
  · decide
  · intro frame point
    rw [hstep]
    have : (CC.startScreenShareFailure e cs).isLive = false := by
      simp [CC.startScreenShareFailure, hcl]
    simp [CC.step, this]
  · rfl
  · intro frame point
    have : (SR.initCameraFailure ss).isRecording = false := by
      simp [SR.initCameraFailure, hsr]
    simp [SR.step, this]

/-- Witness for C7 (amended) at concrete idle states and a concrete
NotAllowedError. -/
theorem c7_acquisition_failure_witness :
    (CC.step (CC.CCEvent.startFail { isDOMException := true, name := "NotAllowedError" })
        ccIdle).error = some "Permission cancelled." ∧
    (SR.initCameraFailure srIdle).error = some SR.cameraErrorMessage := by
  have h := c7_acquisition_failure ccIdle rfl rfl
    { isDOMException := true, name := "NotAllowedError" } srIdle rfl sampleMentor "user1"
  refine ⟨?_, h.2.2.2.2.2.2.1⟩
  rw [h.1, h.2.2.1 ⟨rfl, rfl⟩]

/-! ## C8 — speech output toggling -/

/-- C8 counterexample: re-enabling voice with an unchanged suggestion
replays the old utterance — after the disable run has cancelled the
in-flight utterance (yielding none), the re-enable run starts a new
utterance of the very same suggestion, which the claim says must not
happen. -/
theorem c8_counterexample :
    Speech.srTtsEffect true ttsDepsOff (some (Speech.srUtterance ttsDepsOn)) = none ∧
    Speech.srTtsEffect true ttsDepsOn
        (Speech.srTtsEffect true ttsDepsOff (some (Speech.srUtterance ttsDepsOn)))
      = some (Speech.srUtterance ttsDepsOn) := by
  exact ⟨rfl, rfl⟩

/-- C8 amended: every run of either TTS effect first cancels any in-flight
utterance and speaks only when voice is enabled, the session is live, and
the suggestion is non-empty; while voice is disabled no utterance is ever in
flight; but re-enabling voice while live with an unchanged non-empty
suggestion starts a new utterance of that same suggestion (the old utterance
is replayed). -/
theorem c8_voice_toggling (d : Speech.TTSDeps) (cur : Option Speech.Utterance) :
    (d.isVoiceEnabled = false →
      Speech.srTtsEffect true d cur = none ∧ Speech.ccTtsEffect true d cur = none) ∧
    (∀ u, Speech.srTtsEffect true d cur = some u →
      d.isVoiceEnabled = true ∧ d.live = true ∧ d.currentSuggestion ≠ "" ∧
        u = Speech.srUtterance d) ∧
    (d.isVoiceEnabled = true → d.live = true → d.currentSuggestion ≠ "" →
      Speech.srTtsEffect true d cur = some (Speech.srUtterance d) ∧
      Speech.ccTtsEffect true d cur = some (Speech.ccUtterance d)) := by
  refine ⟨?_, ?_, ?_⟩
  · intro h
    constructor <;> simp [Speech.srTtsEffect, Speech.ccTtsEffect, h]
  · intro u hu
    by_cases h1 : d.isVoiceEnabled
    · by_cases h2 : d.live
      · by_cases h3 : d.currentSuggestion = ""
        · simp [Speech.srTtsEffect, h1, h2, h3] at hu
        · simp [Speech.srTtsEffect, h1, h2, h3] at hu
          exact ⟨by simp [h1], by simp [h2], h3, hu.symm⟩
      · simp [Speech.srTtsEffect, h1, h2] at hu
    · simp [Speech.srTtsEffect, h1] at hu
  · intro h1 h2 h3
    constructor <;> simp [Speech.srTtsEffect, Speech.ccTtsEffect, h1, h2, h3]

/-- Witness for C8 (amended): with voice enabled, live, and a non-empty
suggestion the effect speaks it; with voice disabled it yields none. -/
theorem c8_voice_toggling_witness :
    Speech.srTtsEffect true ttsDepsOn none = some (Speech.srUtterance ttsDepsOn) ∧
    Speech.srTtsEffect true ttsDepsOff none = none := by
  have h1 := c8_voice_toggling ttsDepsOn none
  have h2 := c8_voice_toggling ttsDepsOff none
  exact ⟨(h1.2.2 rfl rfl (by decide)).1, (h2.1 rfl).1⟩

/-! ## C1 — UNSAFE result terminates the session -/

/-- Helper: in the terminated-error state (error set, not recording) every
further event preserves termination and leaves the point history untouched —
the analysis interval is cleaned up and the error view hides every control
that could restart it. -/
theorem sr_step_preserves_terminated (mentor : Mentor) (userId : String)
    (e : SR.SREvent) (s : SR.SRState) (h1 : s.error ≠ none) (h2 : s.isRecording = false) :
    (SR.step mentor userId e s).error ≠ none ∧
    (SR.step mentor userId e s).isRecording = false ∧
    (SR.step mentor userId e s).analysisPoints = s.analysisPoints := by
  cases e with
  | camOk tracks => exact ⟨h1, h2, rfl⟩
  | camFail => exact ⟨by simp [SR.step, SR.initCameraFailure], h2, rfl⟩
  | start =>
      have hng : ¬ (s.error = none ∧ ¬ s.isRecording = true ∧ ¬ s.isProcessing = true) :=
        fun hc => h1 hc.1
      simp only [SR.step, if_neg hng]
      exact ⟨h1, h2, by trivial⟩
  | tick frame point =>
      have hng : ¬ s.isRecording = true := by simp [h2]
      simp only [SR.step, if_neg hng]
      exact ⟨h1, h2, by trivial⟩
  | timerDec =>
      have hng : ¬ (s.isRecording = true ∧ 1 < s.timeLeft) := fun hc => by
        rw [h2] at hc; exact Bool.false_ne_true hc.1
      simp only [SR.step, if_neg hng]
      exact ⟨h1, h2, by trivial⟩
  | stopClick b so m rid now =>
      have hng : ¬ (s.error = none ∧ s.isRecording = true) := fun hc => h1 hc.1
      simp only [SR.step, if_neg hng]
      exact ⟨h1, h2, by trivial⟩
  | speechResult t => exact ⟨h1, h2, rfl⟩
  | clearContext =>
      have hng : ¬ s.error = none := h1
      simp only [SR.step, if_neg hng]
      exact ⟨h1, h2, by trivial⟩
  | toggleVoice =>
      have hng : ¬ s.error = none := h1
      simp only [SR.step, if_neg hng]
      exact ⟨h1, h2, by trivial⟩

/-- Helper: from a terminated-error state, no event sequence ever changes the
point history. -/
theorem sr_run_preserves_points (mentor : Mentor) (userId : String)
    (evs : List SR.SREvent) :
    ∀ s : SR.SRState, s.error ≠ none → s.isRecording = false →
      (SR.run mentor userId evs s).analysisPoints = s.analysisPoints := by
  induction evs with
  | nil => intro s _ _; rfl
  | cons e rest ih =>
      intro s h1 h2
      have h := sr_step_preserves_terminated mentor userId e s h1 h2
      calc (SR.run mentor userId (e :: rest) s).analysisPoints
          = (SR.run mentor userId rest (SR.step mentor userId e s)).analysisPoints := rfl
        _ = (SR.step mentor userId e s).analysisPoints := ih _ h.1 h.2.1
        _ = s.analysisPoints := h.2.2

/-- C1 counterexample: the UNSAFE handler does not clear the pending spoken
instruction — after the unsafe cycle the live context still holds the
transcript in both variants (here "focus on my arms" and "look at this"),
while the claim requires it cleared. -/
theorem c1_counterexample :
    (SR.performAnalysis (some "frame") flaggedPoint srLive).liveContext = "focus on my arms" ∧
    (SR.performAnalysis (some "frame") flaggedPoint srLive).error = some SR.safetyMessage ∧
    (CC.performAnalysis (some "frame") flaggedPoint none ccLive).liveContext = "look at this" ∧
    (CC.performAnalysis (some "frame") flaggedPoint none ccLive).error
      = some CC.ccSafetyMessage := by
  refine ⟨rfl, rfl, rfl, rfl⟩

/-- C1 amended: when an analysis cycle resolves with an UNSAFE point in a
live session (stream acquired, truthy frame), the session terminates within
that cycle: every track of the stream is stopped, a safety-specific error
message is shown, the session leaves recording/live mode, and the UNSAFE
point is discarded (not appended / not stored as the latest point); in the
recording variant no subsequent event ever appends a point again (cycles are
modelled as non-overlapping, the design expectation of the spec).  The
pending spoken instruction is NOT cleared — it survives unchanged. -/
theorem c1_unsafe_termination (mentor : Mentor) (userId : String)
    (s : SR.SRState) (hstream : s.streamRef = true)
    (frame : Option String) (hframe : jsTruthyStr frame = true)
    (p : AnalysisPoint) (hp : p.safetyStatus = SafetyStatus.UNSAFE)
    (cs : CC.CCState) (hcstream : cs.streamRef = true)
    (cframe : Option String) (hcframe : jsTruthyStr cframe = true)
    (q : AnalysisPoint) (hq : q.safetyStatus = SafetyStatus.UNSAFE) :
    (∀ t ∈ (SR.performAnalysis frame p s).deviceTracks, t.stopped = true) ∧
    (SR.performAnalysis frame p s).error = some SR.safetyMessage ∧
    (SR.performAnalysis frame p s).isRecording = false ∧
    (SR.performAnalysis frame p s).analysisPoints = s.analysisPoints ∧
    (SR.performAnalysis frame p s).liveContext = s.liveContext ∧
    (∀ evs, (SR.run mentor userId evs (SR.performAnalysis frame p s)).analysisPoints
      = s.analysisPoints) ∧
    (∀ t ∈ (CC.performAnalysis cframe q none cs).deviceTracks, t.stopped = true) ∧
    (CC.performAnalysis cframe q none cs).streamRef = false ∧
    (CC.performAnalysis cframe q none cs).isLive = false ∧
    (CC.performAnalysis cframe q none cs).error = some CC.ccSafetyMessage ∧
    (CC.performAnalysis cframe q none cs).lastAnalysis = cs.lastAnalysis ∧
    (CC.performAnalysis cframe q none cs).liveContext = cs.liveContext := by
  have hsr : SR.performAnalysis frame p s = SR.handleUnsafeContent s := by
    unfold SR.performAnalysis
    simp [hframe, hp]
  have hsr2 : SR.handleUnsafeContent s =
      { s with recorderActive := false, isRecording := false,
               error := some SR.safetyMessage,
               deviceTracks := s.deviceTracks.map (fun _ => { stopped := true }) } := by
    unfold SR.handleUnsafeContent SR.stopDeviceTracks
    simp [hstream]
  have hcc : CC.performAnalysis cframe q none cs =
      { CC.handleStop { cs with isAnalyzing := false } with
          error := some CC.ccSafetyMessage } := by
    unfold CC.performAnalysis
    simp [hcframe, hq]
  have hcc2 : CC.handleStop { cs with isAnalyzing := false } =
      { cs with isAnalyzing := false, isLive := false,
                deviceTracks := cs.deviceTracks.map (fun _ => { stopped := true }),
                streamRef := false, currentSuggestion := "Session stopped." } := by
    unfold CC.handleStop
    simp [hcstream]
  rw [hsr, hsr2, hcc, hcc2]
  refine ⟨?_, rfl, rfl, rfl, rfl, ?_, ?_, rfl, rfl, rfl, rfl, rfl⟩
  · intro t ht
    obtain ⟨x, _, rfl⟩ := List.mem_map.mp ht
    rfl
  · intro evs
    have := sr_run_preserves_points mentor userId evs
      { s with recorderActive := false, isRecording := false,
               error := some SR.safetyMessage,
               deviceTracks := s.deviceTracks.map (fun _ => { stopped := true }) }
      (by simp) rfl
    simpa using this
  · intro t ht
    obtain ⟨x, _, rfl⟩ := List.mem_map.mp ht
    rfl

/-- Witness for C1 (amended): a concrete unsafe cycle in both live sample
states, followed by a concrete event sequence that leaves the recording
history untouched. -/
theorem c1_unsafe_termination_witness :
    (SR.run sampleMentor "user1"
        [SR.SREvent.start, SR.SREvent.tick (some "f") safePoint,
         SR.SREvent.speechResult "again"]
        (SR.performAnalysis (some "f") flaggedPoint srLive)).analysisPoints
      = srLive.analysisPoints ∧
    (CC.performAnalysis (some "f") flaggedPoint none ccLive).streamRef = false := by
  have h := c1_unsafe_termination sampleMentor "user1" srLive rfl (some "f") (by decide)
    flaggedPoint rfl ccLive rfl (some "f") (by decide) flaggedPoint rfl
  exact ⟨h.2.2.2.2.2.1 _, h.2.2.2.2.2.2.2.1⟩

/-! ## C3 — report retention -/

/-- C3: saving a 6th report for the current user retains exactly the 5 most
recent reports (newest first, by insertion), removes the oldest, and deletes
the removed report's video blob from the blob store (the IndexedDB delete is
modelled as succeeding; its failure is absorbed by a try/catch). -/
theorem c3_report_retention (s : Storage.Store) (u : User)
    (hu : Storage.getUser s = some u)
    (r0 r1 r2 r3 r4 r5 : SessionReport)
    (hfive : Storage.getReportsMetadata s = [r4, r3, r2, r1, r0])
    (h5 : r5.userId = u.id) :
    Storage.getReportsMetadata (Storage.saveReportMetadata r5 s) = [r5, r4, r3, r2, r1] ∧
    (∀ k, r0.videoBlobKey = some k →
      k ∉ (Storage.saveReportMetadata r5 s).videoBlobs) := by
  have hmem : ∀ r ∈ [r4, r3, r2, r1, r0], r.userId = u.id := by
    intro r hr
    have hmem2 : r ∈ Storage.getReportsMetadata s := by rw [hfive]; exact hr
    unfold Storage.getReportsMetadata at hmem2
    rw [hu] at hmem2
    have := (List.mem_filter.mp hmem2).2
    exact of_decide_eq_true this
  have e4 : r4.userId = u.id := hmem r4 (by simp)
  have e3 : r3.userId = u.id := hmem r3 (by simp)
  have e2 : r2.userId = u.id := hmem r2 (by simp)
  have e1 : r1.userId = u.id := hmem r1 (by simp)
  have hsave : Storage.saveReportMetadata r5 s =
      { (match r0.videoBlobKey with
          | some k => Storage.deleteVideoBlob k s
          | none => s) with reportsRaw := [r5, r4, r3, r2, r1] } := by
    unfold Storage.saveReportMetadata
    rw [hfive]
    norm_num [List.drop, List.take, List.foldl]
  constructor
  · rw [hsave]
    cases hbk : r0.videoBlobKey with
    | none =>
        simp only [hbk]
        unfold Storage.getReportsMetadata
        rw [show Storage.getUser { s with reportsRaw := [r5, r4, r3, r2, r1] }
            = Storage.getUser s from rfl, hu]
        simp [List.filter, h5, e4, e3, e2, e1]
    | some k0 =>
        simp only [hbk]
        unfold Storage.getReportsMetadata
        rw [show Storage.getUser { Storage.deleteVideoBlob k0 s with
              reportsRaw := [r5, r4, r3, r2, r1] }
            = Storage.getUser s from rfl, hu]
        simp [Storage.deleteVideoBlob, List.filter, h5, e4, e3, e2, e1]
  · intro k hk
    rw [hsave, hk]
    intro hin
    have hin2 : k ∈ s.videoBlobs.filter (fun x => x ≠ k) := hin
    have hdec := (List.mem_filter.mp hin2).2
    simp at hdec

/-- Witness for C3 at a concrete store holding five reports for the current
user, saving a sixth. -/
theorem c3_report_retention_witness :
    Storage.getReportsMetadata (Storage.saveReportMetadata wReport5 storeWith5)
      = [wReport5, wReport4, wReport3, wReport2, wReport1] ∧
    (∀ k, wReport0.videoBlobKey = some k →
      k ∉ (Storage.saveReportMetadata wReport5 storeWith5).videoBlobs) :=
  c3_report_retention storeWith5 sampleUser (by decide) wReport0 wReport1 wReport2
    wReport3 wReport4 wReport5 (by decide) (by decide)

/-! ## C4 — stop paths: tracks stopped, stream handle -/

/-- C4 counterexample: the recording variant's safety stop leaves the stream
handle in place — streamRef is still set after handleUnsafeContent even
though every track is stopped, while the claim requires the handle cleared
in both variants. -/
theorem c4_counterexample :
    (SR.handleUnsafeContent srLive).streamRef = true ∧
    (∀ t ∈ (SR.handleUnsafeContent srLive).deviceTracks, t.stopped = true) := by
  decide

/-- C4 amended: after every stop path all tracks of the acquired stream are
stopped, and the stream handle is cleared in the co-creation variant (user
stop, device revocation, and safety termination all run handleStop); in the
recording variant the safety path stops the tracks immediately and the user
path stops them at component teardown (the unmount cleanup that follows
report delivery), but the stream handle is never cleared. -/
theorem c4_stop_paths (cs : CC.CCState) (hcs : cs.streamRef = true)
    (ss : SR.SRState) (hss : ss.streamRef = true)
    (mentor : Mentor) (userId : String) (blobOk : Bool)
    (so : Except Unit GS.FinalSummary) (metaOk : Bool) (rid : String) (now : Nat) :
    ((∀ t ∈ (CC.handleStop cs).deviceTracks, t.stopped = true) ∧
      (CC.handleStop cs).streamRef = false) ∧
    (cs.error = none → cs.isLive = true →
      CC.step CC.CCEvent.stopClick cs = CC.handleStop cs) ∧
    (CC.step CC.CCEvent.trackEnded cs = CC.handleStop cs) ∧
    (∀ frame point, jsTruthyStr frame = true →
      point.safetyStatus = SafetyStatus.UNSAFE → cs.isLive = true →
      (∀ t ∈ (CC.step (CC.CCEvent.tick frame point) cs).deviceTracks, t.stopped = true) ∧
      (CC.step (CC.CCEvent.tick frame point) cs).streamRef = false) ∧
    ((∀ t ∈ (SR.handleUnsafeContent ss).deviceTracks, t.stopped = true) ∧
      (SR.handleUnsafeContent ss).streamRef = true) ∧
    ((∀ t ∈ (SR.cleanup (SR.stopRecording mentor userId blobOk so metaOk rid now ss).1).deviceTracks,
        t.stopped = true) ∧
      (SR.cleanup (SR.stopRecording mentor userId blobOk so metaOk rid now ss).1).streamRef
        = true) := by
  have hpres : (SR.stopRecording mentor userId blobOk so metaOk rid now ss).1.deviceTracks
      = ss.deviceTracks ∧
      (SR.stopRecording mentor userId blobOk so metaOk rid now ss).1.streamRef
      = ss.streamRef := by
    unfold SR.stopRecording
    split
    · exact ⟨rfl, rfl⟩
    · split
      · exact ⟨rfl, rfl⟩
      · split
        · exact ⟨rfl, rfl⟩
        · exact ⟨rfl, rfl⟩
  have hstopped : ∀ l : List Track, ∀ t ∈ l.map (fun _ => ({ stopped := true } : Track)),
      t.stopped = true := by
    intro l t ht
    obtain ⟨x, _, rfl⟩ := List.mem_map.mp ht
    rfl
  refine ⟨⟨?_, ?_⟩, ?_, ?_, ?_, ⟨?_, ?_⟩, ⟨?_, ?_⟩⟩
  · intro t ht
    unfold CC.handleStop at ht
    simp only [hcs] at ht
    exact hstopped _ t (by simpa using ht)
  · unfold CC.handleStop
    simp [hcs]
  · intro he hl
    simp [CC.step, he, hl]
  · simp [CC.step, hcs]
  · intro frame point hf hsafe hl
    have : CC.step (CC.CCEvent.tick frame point) cs = CC.performAnalysis frame point none cs := by
      simp [CC.step, hl]
    rw [this]
    have hcc : CC.performAnalysis frame point none cs =
        { CC.handleStop { cs with isAnalyzing := false } with
            error := some CC.ccSafetyMessage } := by
      unfold CC.performAnalysis
      simp [hf, hsafe]
    rw [hcc]
    have hcc2 : CC.handleStop { cs with isAnalyzing := false } =
        { cs with isAnalyzing := false, isLive := false,
                  deviceTracks := cs.deviceTracks.map (fun _ => { stopped := true }),
                  streamRef := false, currentSuggestion := "Session stopped." } := by
      unfold CC.handleStop
      simp [hcs]
    rw [hcc2]
    exact ⟨hstopped _, rfl⟩
  · intro t ht
    unfold SR.handleUnsafeContent SR.stopDeviceTracks at ht
    simp only [hss] at ht
    exact hstopped _ t (by simpa using ht)
  · unfold SR.handleUnsafeContent SR.stopDeviceTracks
    simp [hss]
  · intro t ht
    unfold SR.cleanup SR.stopDeviceTracks at ht
    rw [hpres.2] at ht
    simp only [hss] at ht
    rw [hpres.1] at ht
    exact hstopped _ t (by simpa using ht)
  · unfold SR.cleanup SR.stopDeviceTracks
    rw [hpres.2, hss]
    simp

/-- Witness for C4 (amended) at the concrete live states and a concrete
successful stop. -/
theorem c4_stop_paths_witness :
    (CC.handleStop ccLive).streamRef = false ∧
    (SR.handleUnsafeContent srLive).streamRef = true ∧
    (∀ t ∈ (SR.cleanup (SR.stopRecording sampleMentor "user1" true
        (Except.ok { keyInsights := ["k"], overallScore := 80 }) true "rid4" 700000
        srLive).1).deviceTracks, t.stopped = true) := by
  have h := c4_stop_paths ccLive rfl srLive rfl sampleMentor "user1" true
    (Except.ok { keyInsights := ["k"], overallScore := 80 }) true "rid4" 700000
  exact ⟨h.1.2, h.2.2.2.2.1.2, h.2.2.2.2.2.1⟩

/-! ## Frame geometry lemmas (shared by C5 and C6) -/

theorem frame_ulpErr_pos : (0:ℚ) < Frame.ulpErr := by
  norm_num [Frame.ulpErr]

theorem frame_ulpErr_lt_one : Frame.ulpErr < 1 := by
  norm_num [Frame.ulpErr]

/-- Exact arithmetic (the identity) satisfies the binary64 rounding
contract. -/
theorem frame_roundingModel_id : Frame.RoundingModel (fun x : ℚ => x) := by
  refine ⟨?_, rfl, ?_⟩
  · intro x hx
    have h1 : 0 ≤ Frame.ulpErr * x := le_of_lt (mul_pos frame_ulpErr_pos hx)
    constructor <;> nlinarith
  · intro x hx
    exact hx

set_option maxHeartbeats 1000000 in
/-- Core analysis of the downscale branch: for a frame wider than the
maximum, both dimensions are multiplied by the single computed scale factor
and floored; the produced width is the maximum or one pixel short of it, and
the produced height stays within the rounding envelope of exact uniform
scaling (and is at least one pixel when the aspect ratio is at most half the
maximum width). -/
theorem frame_downscale_core (rnd : ℚ → ℚ) (hr : Frame.RoundingModel rnd)
    (M W H : Nat) (hM1 : 1 ≤ M) (hMub : M ≤ 1920) (hw : M < W) (hh : 0 < H) :
    Frame.scaledDims rnd M W H =
      ((Int.floor (rnd ((W:ℚ) * min 1 (rnd ((M:ℚ)/(W:ℚ)))))).toNat,
       (Int.floor (rnd ((H:ℚ) * min 1 (rnd ((M:ℚ)/(W:ℚ)))))).toNat) ∧
    M - 1 ≤ (Frame.scaledDims rnd M W H).1 ∧
    (Frame.scaledDims rnd M W H).1 ≤ M ∧
    (((Frame.scaledDims rnd M W H).2 : ℚ) ≤
      (1 + Frame.ulpErr)^2 * ((H:ℚ) * (M:ℚ) / (W:ℚ))) ∧
    ((1 - Frame.ulpErr)^2 * ((H:ℚ) * (M:ℚ) / (W:ℚ)) - 1 ≤
      ((Frame.scaledDims rnd M W H).2 : ℚ)) ∧
    (2 * W ≤ M * H → 1 ≤ (Frame.scaledDims rnd M W H).2) := by
  have hueq : Frame.ulpErr = 1 / 2 ^ 53 := by norm_num [Frame.ulpErr]
  have hu0 : (0:ℚ) < Frame.ulpErr := frame_ulpErr_pos
  have hu1 : Frame.ulpErr < 1 := frame_ulpErr_lt_one
  have hW0 : 0 < W := by omega
  have hWq0 : (0:ℚ) < (W:ℚ) := by exact_mod_cast hW0
  have hMq1 : (1:ℚ) ≤ (M:ℚ) := by exact_mod_cast hM1
  have hMqub : (M:ℚ) ≤ 1920 := by exact_mod_cast hMub
  have hWq : (M:ℚ) + 1 ≤ (W:ℚ) := by
    have h' : ((M + 1 : Nat) : ℚ) ≤ ((W : Nat) : ℚ) := by exact_mod_cast hw
    push_cast at h'
    linarith
  have hHq0 : (0:ℚ) < (H:ℚ) := by exact_mod_cast hh
  have hx0 : 0 < (M:ℚ) / (W:ℚ) := div_pos (by linarith) hWq0
  obtain ⟨hs_lo, hs_hi⟩ := hr.1 _ hx0
  have h1mu : (0:ℚ) < 1 - Frame.ulpErr := by linarith
  have hsc0 : 0 < rnd ((M:ℚ) / (W:ℚ)) :=
    lt_of_lt_of_le (mul_pos h1mu hx0) hs_lo
  have hscM : (1 + Frame.ulpErr) * ((M:ℚ)/(W:ℚ)) < 1 := by
    have heq : (1 + Frame.ulpErr) * ((M:ℚ)/(W:ℚ))
        = ((1 + Frame.ulpErr) * (M:ℚ))/(W:ℚ) := by ring
    rw [heq, div_lt_one hWq0]
    have h3 : Frame.ulpErr * (M:ℚ) ≤ Frame.ulpErr * 1920 :=
      mul_le_mul_of_nonneg_left hMqub (le_of_lt hu0)
    have h4 : Frame.ulpErr * 1920 < 1 := by rw [hueq]; norm_num
    linarith
  have hsc1 : rnd ((M:ℚ)/(W:ℚ)) < 1 := lt_of_le_of_lt hs_hi hscM
  have hmin : min 1 (rnd ((M:ℚ)/(W:ℚ))) = rnd ((M:ℚ)/(W:ℚ)) :=
    min_eq_right (le_of_lt hsc1)
  have hW0' : ¬ W = 0 := by omega
  have hdims : Frame.scaledDims rnd M W H =
      ((Int.floor (rnd ((W:ℚ) * min 1 (rnd ((M:ℚ)/(W:ℚ)))))).toNat,
       (Int.floor (rnd ((H:ℚ) * min 1 (rnd ((M:ℚ)/(W:ℚ)))))).toNat) := by
    unfold Frame.scaledDims
    rw [if_neg hW0']
    simp only [hmin]
    rw [if_pos hsc1]
  have hfst : (Frame.scaledDims rnd M W H).1
      = (Int.floor (rnd ((W:ℚ) * rnd ((M:ℚ)/(W:ℚ))))).toNat := by
    rw [hdims, hmin]
  have hsnd : (Frame.scaledDims rnd M W H).2
      = (Int.floor (rnd ((H:ℚ) * rnd ((M:ℚ)/(W:ℚ))))).toNat := by
    rw [hdims, hmin]
  -- width bounds
  have hv_lo : (1 - Frame.ulpErr) * (M:ℚ) ≤ (W:ℚ) * rnd ((M:ℚ)/(W:ℚ)) := by
    have h' := mul_le_mul_of_nonneg_left hs_lo (le_of_lt hWq0)
    have heq : (W:ℚ) * ((1 - Frame.ulpErr) * ((M:ℚ)/(W:ℚ)))
        = (1 - Frame.ulpErr) * (M:ℚ) := by
      field_simp
    linarith
  have hv_hi : (W:ℚ) * rnd ((M:ℚ)/(W:ℚ)) ≤ (1 + Frame.ulpErr) * (M:ℚ) := by
    have h' := mul_le_mul_of_nonneg_left hs_hi (le_of_lt hWq0)
    have heq : (W:ℚ) * ((1 + Frame.ulpErr) * ((M:ℚ)/(W:ℚ)))
        = (1 + Frame.ulpErr) * (M:ℚ) := by
      field_simp
    linarith
  have hv0 : 0 < (W:ℚ) * rnd ((M:ℚ)/(W:ℚ)) := mul_pos hWq0 hsc0
  obtain ⟨hrw_lo, hrw_hi⟩ := hr.1 _ hv0
  have hrw_lo2 : (1 - Frame.ulpErr)^2 * (M:ℚ) ≤ rnd ((W:ℚ) * rnd ((M:ℚ)/(W:ℚ))) := by
    have h3 := mul_le_mul_of_nonneg_left hv_lo (le_of_lt h1mu)
    have hring : (1 - Frame.ulpErr)^2 * (M:ℚ)
        = (1 - Frame.ulpErr) * ((1 - Frame.ulpErr) * (M:ℚ)) := by ring
    linarith
  have hrw_hi2 : rnd ((W:ℚ) * rnd ((M:ℚ)/(W:ℚ))) ≤ (1 + Frame.ulpErr)^2 * (M:ℚ) := by
    have h3 := mul_le_mul_of_nonneg_left hv_hi (show (0:ℚ) ≤ 1 + Frame.ulpErr by linarith)
    have hring : (1 + Frame.ulpErr)^2 * (M:ℚ)
        = (1 + Frame.ulpErr) * ((1 + Frame.ulpErr) * (M:ℚ)) := by ring
    linarith
  have hnum_hi : (1 + Frame.ulpErr)^2 * (M:ℚ) < (M:ℚ) + 1 := by
    rw [hueq]
    have hcoef : (0:ℚ) ≤ (1 + 1/2^53)^2 - 1 := by norm_num
    have h1 := mul_le_mul_of_nonneg_left hMqub hcoef
    have h2 : (((1:ℚ) + 1/2^53)^2 - 1) * 1920 < 1 := by norm_num
    nlinarith [h1, h2]
  have hnum_lo : (M:ℚ) - 1 < (1 - Frame.ulpErr)^2 * (M:ℚ) := by
    rw [hueq]
    have hcoef : (0:ℚ) ≤ 1 - (1 - 1/2^53)^2 := by norm_num
    have h1 := mul_le_mul_of_nonneg_left hMqub hcoef
    have h2 : ((1:ℚ) - (1 - 1/2^53)^2) * 1920 < 1 := by norm_num
    nlinarith [h1, h2]
  have hfl_hi : Int.floor (rnd ((W:ℚ) * rnd ((M:ℚ)/(W:ℚ)))) ≤ (M:ℤ) := by
    have hlt : rnd ((W:ℚ) * rnd ((M:ℚ)/(W:ℚ))) < (((M:ℤ) + 1 : ℤ) : ℚ) := by
      push_cast
      linarith
    have := Int.floor_lt.mpr hlt
    omega
  have hfl_lo : (M:ℤ) - 1 ≤ Int.floor (rnd ((W:ℚ) * rnd ((M:ℚ)/(W:ℚ)))) := by
    apply Int.le_floor.mpr
    push_cast
    linarith
  -- height bounds
  have hvh_lo : (1 - Frame.ulpErr) * ((H:ℚ) * (M:ℚ) / (W:ℚ))
      ≤ (H:ℚ) * rnd ((M:ℚ)/(W:ℚ)) := by
    have h' := mul_le_mul_of_nonneg_left hs_lo (le_of_lt hHq0)
    have heq : (H:ℚ) * ((1 - Frame.ulpErr) * ((M:ℚ)/(W:ℚ)))
        = (1 - Frame.ulpErr) * ((H:ℚ) * (M:ℚ) / (W:ℚ)) := by
      field_simp
      ring
    linarith
  have hvh_hi : (H:ℚ) * rnd ((M:ℚ)/(W:ℚ))
      ≤ (1 + Frame.ulpErr) * ((H:ℚ) * (M:ℚ) / (W:ℚ)) := by
    have h' := mul_le_mul_of_nonneg_left hs_hi (le_of_lt hHq0)
    have heq : (H:ℚ) * ((1 + Frame.ulpErr) * ((M:ℚ)/(W:ℚ)))
        = (1 + Frame.ulpErr) * ((H:ℚ) * (M:ℚ) / (W:ℚ)) := by
      field_simp
      ring
    linarith
  have hvh0 : 0 < (H:ℚ) * rnd ((M:ℚ)/(W:ℚ)) := mul_pos hHq0 hsc0
  obtain ⟨hrh_lo, hrh_hi⟩ := hr.1 _ hvh0
  have hA0 : 0 < (H:ℚ) * (M:ℚ) / (W:ℚ) :=
    div_pos (mul_pos hHq0 (by linarith)) hWq0
  have hrh_lo2 : (1 - Frame.ulpErr)^2 * ((H:ℚ) * (M:ℚ) / (W:ℚ))
      ≤ rnd ((H:ℚ) * rnd ((M:ℚ)/(W:ℚ))) := by
    have h3 := mul_le_mul_of_nonneg_left hvh_lo (le_of_lt h1mu)
    have hring : (1 - Frame.ulpErr)^2 * ((H:ℚ) * (M:ℚ) / (W:ℚ))
        = (1 - Frame.ulpErr) * ((1 - Frame.ulpErr) * ((H:ℚ) * (M:ℚ) / (W:ℚ))) := by ring
    linarith
  have hrh_hi2 : rnd ((H:ℚ) * rnd ((M:ℚ)/(W:ℚ)))
      ≤ (1 + Frame.ulpErr)^2 * ((H:ℚ) * (M:ℚ) / (W:ℚ)) := by
    have h3 := mul_le_mul_of_nonneg_left hvh_hi (show (0:ℚ) ≤ 1 + Frame.ulpErr by linarith)
    have hring : (1 + Frame.ulpErr)^2 * ((H:ℚ) * (M:ℚ) / (W:ℚ))
        = (1 + Frame.ulpErr) * ((1 + Frame.ulpErr) * ((H:ℚ) * (M:ℚ) / (W:ℚ))) := by ring
    linarith
  have hrh0 : 0 < rnd ((H:ℚ) * rnd ((M:ℚ)/(W:ℚ))) :=
    lt_of_lt_of_le (mul_pos h1mu hvh0) hrh_lo
  have hflh0 : 0 ≤ Int.floor (rnd ((H:ℚ) * rnd ((M:ℚ)/(W:ℚ)))) :=
    Int.floor_nonneg.mpr (le_of_lt hrh0)
  have hcast : (((Int.floor (rnd ((H:ℚ) * rnd ((M:ℚ)/(W:ℚ))))).toNat : ℚ))
      = ((Int.floor (rnd ((H:ℚ) * rnd ((M:ℚ)/(W:ℚ)))) : ℤ) : ℚ) := by
    rw [← Int.cast_natCast, Int.toNat_of_nonneg hflh0]
  refine ⟨hdims, ?_, ?_, ?_, ?_, ?_⟩
  · rw [hfst]
    omega
  · rw [hfst]
    omega
  · rw [hsnd, hcast]
    have hfle := Int.floor_le (rnd ((H:ℚ) * rnd ((M:ℚ)/(W:ℚ))))
    linarith
  · rw [hsnd, hcast]
    have hflg := Int.sub_one_lt_floor (rnd ((H:ℚ) * rnd ((M:ℚ)/(W:ℚ))))
    linarith
  · intro haspect
    have hA2 : (2:ℚ) ≤ (H:ℚ) * (M:ℚ) / (W:ℚ) := by
      rw [le_div_iff hWq0]
      have h' : ((2 * W : Nat) : ℚ) ≤ ((M * H : Nat) : ℚ) := by exact_mod_cast haspect
      push_cast at h'
      linarith
    have hsq : (0:ℚ) ≤ (1 - Frame.ulpErr)^2 := sq_nonneg _
    have h5 := mul_le_mul_of_nonneg_left hA2 hsq
    have h6 : ((1:ℚ) - Frame.ulpErr)^2 * 2 ≥ 1 := by
      rw [hueq]
      norm_num
    have h7 : (1:ℚ) ≤ rnd ((H:ℚ) * rnd ((M:ℚ)/(W:ℚ))) := by
      linarith
    have h8 : (1:ℤ) ≤ Int.floor (rnd ((H:ℚ) * rnd ((M:ℚ)/(W:ℚ)))) := by
      apply Int.le_floor.mpr
      push_cast
      linarith
    rw [hsnd]
    omega

/-- A frame at or below the maximum width is drawn at its natural size
(never upscaled). -/
theorem frame_no_upscale (rnd : ℚ → ℚ) (hr : Frame.RoundingModel rnd)
    (M W H : Nat) (hw0 : 0 < W) (hwM : W ≤ M) :
    Frame.scaledDims rnd M W H = (W, H) := by
  have hW0' : ¬ W = 0 := by omega
  have hWq0 : (0:ℚ) < (W:ℚ) := by exact_mod_cast hw0
  have hx1 : (1:ℚ) ≤ (M:ℚ) / (W:ℚ) := by
    rw [le_div_iff hWq0, one_mul]
    exact_mod_cast hwM
  have h1 : 1 ≤ rnd ((M:ℚ)/(W:ℚ)) := hr.2.2 _ hx1
  have hmin : min 1 (rnd ((M:ℚ)/(W:ℚ))) = 1 := min_eq_left h1
  unfold Frame.scaledDims
  rw [if_neg hW0']
  simp only [hmin]
  rw [if_neg (lt_irrefl (1:ℚ))]

/-- A zero natural dimension yields a zero-area canvas: at least one of the
drawn dimensions is zero. -/
theorem frame_zero_dims (rnd : ℚ → ℚ) (hr : Frame.RoundingModel rnd)
    (M W H : Nat) (h : W = 0 ∨ H = 0) :
    (Frame.scaledDims rnd M W H).1 = 0 ∨ (Frame.scaledDims rnd M W H).2 = 0 := by
  rcases h with h | h
  · subst h
    left
    unfold Frame.scaledDims
    rw [if_pos rfl]
  · subst h
    by_cases hW : W = 0
    · subst hW
      right
      unfold Frame.scaledDims
      rw [if_pos rfl]
    · right
      unfold Frame.scaledDims
      rw [if_neg hW]
      by_cases hlt : min 1 (rnd ((M:ℚ)/(W:ℚ))) < 1
      · simp only [if_pos hlt]
        have hz : ((0:Nat):ℚ) * min 1 (rnd ((M:ℚ)/(W:ℚ))) = 0 := by
          push_cast
          ring
        rw [hz, hr.2.1]
        simp
      · simp only [if_neg hlt]

/-! ## C5 — capture readiness and payload -/

/-- C5 counterexample: the recording variant has no readiness or dimension
check — with zero natural dimensions captureFrame returns the empty payload
of the zero-area canvas (some ""), not none as the claim states for both
variants. -/
theorem c5_counterexample :
    Frame.srCaptureFrame (fun x => x) bodyPayload
      { videoWidth := 0, videoHeight := 0, readyState := 0 } = some "" ∧
    (some "" : Option String) ≠ none := by
  exact ⟨rfl, by simp⟩

/-- The data-URL payload of a positive-area canvas is the encoded body. -/
theorem dataURLPayload_pos (payload : Nat → Nat → String) (w h : Nat)
    (hw : 0 < w) (hh : 0 < h) :
    Frame.dataURLPayload payload w h = payload w h := by
  unfold Frame.dataURLPayload
  rw [if_neg (by omega)]

/-- The data-URL payload of a zero-area canvas is empty. -/
theorem dataURLPayload_zero (payload : Nat → Nat → String) (w h : Nat)
    (h0 : w = 0 ∨ h = 0) :
    Frame.dataURLPayload payload w h = "" := by
  unfold Frame.dataURLPayload
  rw [if_pos h0]

/-- C5 amended: the co-creation variant returns none while the source is not
ready (readyState < 2) or a natural dimension is zero, and a non-empty
payload once ready with positive dimensions (provided downscaling does not
collapse the height to zero pixels, for which aspect ratio at most half the
maximum width suffices); the recording variant never returns none for a
mounted component — a zero dimension yields the empty payload (which the
analysis cycle's falsiness check skips), and positive dimensions yield a
non-empty payload regardless of playback readiness. -/
theorem c5_capture_readiness (rnd : ℚ → ℚ) (hr : Frame.RoundingModel rnd)
    (payload : Nat → Nat → String)
    (hpay : ∀ w h, 0 < w → 0 < h → payload w h ≠ "")
    (v : Frame.VideoState) :
    (v.readyState < 2 ∨ v.videoWidth = 0 ∨ v.videoHeight = 0 →
      Frame.ccCaptureFrame rnd payload v = none) ∧
    (2 ≤ v.readyState → 0 < v.videoWidth → 0 < v.videoHeight →
      (1920 < v.videoWidth → 2 * v.videoWidth ≤ 1920 * v.videoHeight) →
      ∃ b, Frame.ccCaptureFrame rnd payload v = some b ∧ b ≠ "") ∧
    (v.videoWidth = 0 ∨ v.videoHeight = 0 →
      Frame.srCaptureFrame rnd payload v = some "") ∧
    (0 < v.videoWidth → 0 < v.videoHeight →
      (1024 < v.videoWidth → 2 * v.videoWidth ≤ 1024 * v.videoHeight) →
      ∃ b, Frame.srCaptureFrame rnd payload v = some b ∧ b ≠ "") := by
  refine ⟨?_, ?_, ?_, ?_⟩
  · intro h
    unfold Frame.ccCaptureFrame
    rw [if_pos h]
  · intro hready hw hh haspect
    have hcond : ¬ (v.readyState < 2 ∨ v.videoWidth = 0 ∨ v.videoHeight = 0) := by omega
    unfold Frame.ccCaptureFrame
    rw [if_neg hcond]
    rcases le_or_lt v.videoWidth 1920 with hle | hgt
    · rw [frame_no_upscale rnd hr 1920 v.videoWidth v.videoHeight hw hle]
      exact ⟨payload v.videoWidth v.videoHeight,
        congrArg some (dataURLPayload_pos payload v.videoWidth v.videoHeight hw hh),
        hpay _ _ hw hh⟩
    · have hcore := frame_downscale_core rnd hr 1920 v.videoWidth v.videoHeight
        (by norm_num) (by norm_num) hgt hh
      have h1 : 0 < (Frame.scaledDims rnd 1920 v.videoWidth v.videoHeight).1 := by
        have := hcore.2.1
        omega
      have h2 : 0 < (Frame.scaledDims rnd 1920 v.videoWidth v.videoHeight).2 :=
        hcore.2.2.2.2.2 (haspect hgt)
      exact ⟨payload _ _, congrArg some (dataURLPayload_pos payload _ _ h1 h2),
        hpay _ _ h1 h2⟩
  · intro h
    have hz := frame_zero_dims rnd hr 1024 v.videoWidth v.videoHeight h
    exact congrArg some (dataURLPayload_zero payload _ _ hz)
  · intro hw hh haspect
    rcases le_or_lt v.videoWidth 1024 with hle | hgt
    · unfold Frame.srCaptureFrame
      rw [frame_no_upscale rnd hr 1024 v.videoWidth v.videoHeight hw hle]
      exact ⟨payload v.videoWidth v.videoHeight,
        congrArg some (dataURLPayload_pos payload v.videoWidth v.videoHeight hw hh),
        hpay _ _ hw hh⟩
    · have hcore := frame_downscale_core rnd hr 1024 v.videoWidth v.videoHeight
        (by norm_num) (by norm_num) hgt hh
      have h1 : 0 < (Frame.scaledDims rnd 1024 v.videoWidth v.videoHeight).1 := by
        have := hcore.2.1
        omega
      have h2 : 0 < (Frame.scaledDims rnd 1024 v.videoWidth v.videoHeight).2 :=
        hcore.2.2.2.2.2 (haspect hgt)
      exact ⟨payload _ _, congrArg some (dataURLPayload_pos payload _ _ h1 h2),
        hpay _ _ h1 h2⟩

/-- Witness for C5 (amended) at concrete ready, not-ready and zero-height
video states with exact arithmetic. -/
theorem c5_capture_readiness_witness :
    (∃ b, Frame.ccCaptureFrame (fun x => x) bodyPayload
        { videoWidth := 800, videoHeight := 600, readyState := 4 } = some b ∧ b ≠ "") ∧
    Frame.ccCaptureFrame (fun x => x) bodyPayload
        { videoWidth := 800, videoHeight := 600, readyState := 1 } = none ∧
    Frame.srCaptureFrame (fun x => x) bodyPayload
        { videoWidth := 640, videoHeight := 0, readyState := 4 } = some "" := by
  have hpay : ∀ w h, 0 < w → 0 < h → bodyPayload w h ≠ "" := by
    intro w h _ _
    show ("AAAA" : String) ≠ ""
    decide
  have h1 := c5_capture_readiness (fun x => x) frame_roundingModel_id bodyPayload hpay
    { videoWidth := 800, videoHeight := 600, readyState := 4 }
  have h2 := c5_capture_readiness (fun x => x) frame_roundingModel_id bodyPayload hpay
    { videoWidth := 800, videoHeight := 600, readyState := 1 }
  have h3 := c5_capture_readiness (fun x => x) frame_roundingModel_id bodyPayload hpay
    { videoWidth := 640, videoHeight := 0, readyState := 4 }
  exact ⟨h1.2.1 (by decide) (by decide) (by decide) (by decide),
    h2.1 (Or.inl (by decide)), h3.2.2.1 (Or.inr rfl)⟩

/-! ## C6 — downscale geometry -/

/-- C6 counterexample: under IEEE-754 binary64 arithmetic (the executable
model scaledDimsFl, validated against the rounding of actual doubles) a
1122-wide, 900-high frame in recording mode is downscaled to width 1023, not
the maximum 1024: the rounded division 1024/1122 is low enough that the
truncated rounded product falls one pixel short of the maximum. -/
theorem c6_counterexample :
    Frame.scaledDimsFl 1024 1122 900 = (1023, 821) ∧
    (Frame.scaledDimsFl 1024 1122 900).1 ≠ 1024 := by decide

/-- C6 amended: for every rounding within the binary64 error envelope, a
frame wider than the mode's maximum is downscaled with both dimensions
multiplied by the one computed scale factor and floored; the produced width
equals the maximum or falls exactly one pixel short of it (floating-point
rounding can lose the last pixel), and the produced height stays within one
pixel of exact uniform scaling (aspect ratio preserved within rounding); a
frame at or below the maximum is drawn at its natural size, never
upscaled. -/
theorem c6_downscale_geometry (rnd : ℚ → ℚ) (hr : Frame.RoundingModel rnd)
    (M W H : Nat) (hM : M = 1024 ∨ M = 1920) (hw0 : 0 < W) (hh0 : 0 < H) :
    (W ≤ M → Frame.scaledDims rnd M W H = (W, H)) ∧
    (M < W →
      Frame.scaledDims rnd M W H =
        ((Int.floor (rnd ((W:ℚ) * min 1 (rnd ((M:ℚ)/(W:ℚ)))))).toNat,
         (Int.floor (rnd ((H:ℚ) * min 1 (rnd ((M:ℚ)/(W:ℚ)))))).toNat) ∧
      M - 1 ≤ (Frame.scaledDims rnd M W H).1 ∧
      (Frame.scaledDims rnd M W H).1 ≤ M ∧
      (((Frame.scaledDims rnd M W H).2 : ℚ) ≤
        (1 + Frame.ulpErr)^2 * ((H:ℚ) * (M:ℚ) / (W:ℚ))) ∧
      ((1 - Frame.ulpErr)^2 * ((H:ℚ) * (M:ℚ) / (W:ℚ)) - 1 ≤
        ((Frame.scaledDims rnd M W H).2 : ℚ))) := by
  constructor
  · intro hle
    exact frame_no_upscale rnd hr M W H hw0 hle
  · intro hgt
    have hM1 : 1 ≤ M := by rcases hM with h | h <;> omega
    have hMub : M ≤ 1920 := by rcases hM with h | h <;> omega
    have hcore := frame_downscale_core rnd hr M W H hM1 hMub hgt hh0
    exact ⟨hcore.1, hcore.2.1, hcore.2.2.1, hcore.2.2.2.1, hcore.2.2.2.2.1⟩

/-- Witness for C6 (amended): with exact arithmetic a 512-wide frame is left
at natural size and a 2048-wide frame lands within one pixel of the 1024
maximum. -/
theorem c6_downscale_geometry_witness :
    Frame.scaledDims (fun x => x) 1024 512 400 = (512, 400) ∧
    1023 ≤ (Frame.scaledDims (fun x => x) 1024 2048 1536).1 ∧
    (Frame.scaledDims (fun x => x) 1024 2048 1536).1 ≤ 1024 := by
  have h1 := c6_downscale_geometry (fun x => x) frame_roundingModel_id 1024 512 400
    (Or.inl rfl) (by norm_num) (by norm_num)
  have h2 := c6_downscale_geometry (fun x => x) frame_roundingModel_id 1024 2048 1536
    (Or.inl rfl) (by norm_num) (by norm_num)
  exact ⟨h1.1 (by norm_num), (h2.2 (by norm_num)).2.1, (h2.2 (by norm_num)).2.2.1⟩
